import Mathlib

/-!
# Verification of the portfolio-strategy decision core

Shallow embedding of the two strategy classes in
`vnpy_portfoliostrategy/strategies/quadprog_strategy.py` and
`vnpy_portfoliostrategy/strategies/portfolio_mean_reversion.py`.

Prices and indicator values are modelled as rationals (`ℚ`); Python floats
carry exact decimal literals in every scenario considered here, so rational
arithmetic reproduces each comparison the code performs.  Python dictionaries
are modelled as association lists in insertion order (Python dict iteration
order).  A Python exception (`ZeroDivisionError`) is modelled with `Except`.
A `set_target(vt_symbol, t)` call is modelled as the value `some t`; `none`
means the per-instrument loop body issued no `set_target` call for that
instrument.
-/

/-- A bar of market data (`BarData`): the fields read by `on_bars`. -/
structure Bar where
  high_price : ℚ
  low_price : ℚ
  close_price : ℚ
deriving DecidableEq, Repr

/-- Strategy configuration read inside the per-instrument loop of `on_bars`. -/
structure Params where
  trailing_percent : ℚ
  fixed_size : Int
  rsi_buy : ℚ
  rsi_sell : ℚ
deriving DecidableEq, Repr

/-- Indicator outputs consumed from the `ArrayManager` collaborator for one
instrument on one slice: `atr_array[-1]`, `atr_array[-self.atr_ma_window:].mean()`
and `am.rsi(self.rsi_window)`. -/
structure Indicators where
  atr : ℚ
  atr_ma : ℚ
  rsi : ℚ
deriving DecidableEq, Repr

/-- Per-instrument position state: `get_pos(vt_symbol)` (authoritative, read
only here) and the stop-tracking extremes `intra_trade_high[vt_symbol]`,
`intra_trade_low[vt_symbol]`. -/
structure PosState where
  pos : Int
  intra_trade_high : ℚ
  intra_trade_low : ℚ
deriving DecidableEq, Repr

/-- The body of the per-instrument loop of `QuadProgStrategy.on_bars`
(lines 120-149 of quadprog_strategy.py), run after the `am.inited` check.
Returns the updated stop-tracking state and the `set_target` call issued for
this instrument, if any. -/
def processInstrument (p : Params) (ind : Indicators) (ps : PosState) (bar : Bar) :
    PosState × Option Int :=
  if ps.pos = 0 then
    let ps1 : PosState := ⟨ps.pos, bar.high_price, bar.low_price⟩
    if ind.atr > ind.atr_ma then
      if ind.rsi > p.rsi_buy then
        (ps1, some p.fixed_size)
      else if ind.rsi < p.rsi_sell then
        (ps1, some (-p.fixed_size))
      else
        (ps1, some 0)
    else
      (ps1, none)
  else if ps.pos > 0 then
    let ih := max ps.intra_trade_high bar.high_price
    let ps1 : PosState := ⟨ps.pos, ih, bar.low_price⟩
    let long_stop := ih * (1 - p.trailing_percent / 100)
    if bar.close_price ≤ long_stop then
      (ps1, some 0)
    else
      (ps1, none)
  else if ps.pos < 0 then
    let il := min ps.intra_trade_low bar.low_price
    let ps1 : PosState := ⟨ps.pos, bar.high_price, il⟩
    let short_stop := il * (1 + p.trailing_percent / 100)
    if bar.close_price ≥ short_stop then
      (ps1, some 0)
    else
      (ps1, none)
  else
    (ps, none)

/-- The body of the per-instrument loop of `MeanReversionStrategy.on_bars`
(lines 112-141 of portfolio_mean_reversion.py), transcribed from that file
independently of `processInstrument`. -/
def processInstrumentMR (p : Params) (ind : Indicators) (ps : PosState) (bar : Bar) :
    PosState × Option Int :=
  if ps.pos = 0 then
    let ps1 : PosState := ⟨ps.pos, bar.high_price, bar.low_price⟩
    if ind.atr > ind.atr_ma then
      if ind.rsi > p.rsi_buy then
        (ps1, some p.fixed_size)
      else if ind.rsi < p.rsi_sell then
        (ps1, some (-p.fixed_size))
      else
        (ps1, some 0)
    else
      (ps1, none)
  else if ps.pos > 0 then
    let ih := max ps.intra_trade_high bar.high_price
    let ps1 : PosState := ⟨ps.pos, ih, bar.low_price⟩
    let long_stop := ih * (1 - p.trailing_percent / 100)
    if bar.close_price ≤ long_stop then
      (ps1, some 0)
    else
      (ps1, none)
  else if ps.pos < 0 then
    let il := min ps.intra_trade_low bar.low_price
    let ps1 : PosState := ⟨ps.pos, bar.high_price, il⟩
    let short_stop := il * (1 + p.trailing_percent / 100)
    if bar.close_price ≥ short_stop then
      (ps1, some 0)
    else
      (ps1, none)
  else
    (ps, none)

/-- `MeanReversionStrategy.on_init` lines 68-69: `rsi_buy = 50 + rsi_entry`,
`rsi_sell = 50 - rsi_entry`. -/
def on_init_thresholds (rsi_entry : ℚ) : ℚ × ℚ :=
  (50 + rsi_entry, 50 - rsi_entry)

/-- The effect of the loop body on the stored target of the instrument:
`set_target` overwrites the target; no call leaves it unchanged. -/
def newTarget (pre : Int) (call : Option Int) : Int :=
  call.getD pre

/-- One instrument's inputs for one slice of `on_bars`: the `am.inited` flag,
the indicator outputs, the position state and the delivered bar. -/
structure InstrSlice where
  inited : Bool
  ind : Indicators
  ps : PosState
  bar : Bar
deriving DecidableEq, Repr

/-- The second loop of `on_bars` (lines 110-151 of quadprog_strategy.py),
iterating `bars.items()` in insertion order.  Returns the `set_target` calls
issued (in order) and whether the loop completed so that
`rebalance_portfolio(bars)` runs (`true`) or an uninitialized `ArrayManager`
caused an early `return` from `on_bars` (`false`). -/
def onBarsLoop (p : Params) : List (String × InstrSlice) → List (String × Int) × Bool
  | [] => ([], true)
  | (sym, s) :: rest =>
    if s.inited then
      let r := processInstrument p s.ind s.ps s.bar
      let rr := onBarsLoop p rest
      (((r.2.map (fun t => (sym, t))).toList) ++ rr.1, rr.2)
    else
      ([], false)

/-- `QuadProgStrategy.calculate_unit_weights` (lines 67-76).  `signal_strength`
is the dict in insertion order.  `total_strength = sum(self.signal_strength.values())`;
the loop computes `strength / total_strength` per entry.  In Python the first
such division raises `ZeroDivisionError` when `total_strength` is zero, which
happens exactly when the dict is nonempty and its values sum to zero (an empty
dict never reaches a division and returns `{}`); the raise is modelled as
`Except.error ()`. -/
def calculate_unit_weights (signal_strength : List (String × ℚ)) :
    Except Unit (List (String × ℚ)) :=
  let total_strength := (signal_strength.map Prod.snd).sum
  if total_strength = 0 ∧ signal_strength ≠ [] then
    Except.error ()
  else
    Except.ok (signal_strength.map (fun p => (p.1, p.2 / total_strength)))

/-- `MeanReversionStrategy.calculate_unit_var` (lines 73-81): the loop body is
`pass` and the `return` is commented out, so the function returns `None` for
every state. -/
def MR_calculate_unit_var (signal_strength : List (String × ℚ)) : Option ℚ :=
  let _ := signal_strength.foldl (fun u _ => u) ()
  none

/-- Pointwise sum of aligned series: `pd.concat(portfolio_return_list, axis=1).sum(axis=1)`
for series sharing one index. -/
def sumSeriesPointwise : List (List ℚ) → List ℚ
  | [] => []
  | [s] => s
  | s :: rest => List.zipWith (· + ·) s (sumSeriesPointwise rest)

/-- `QuadProgStrategy.calculate_unit_var` (lines 79-89).  The pandas
exponentially-weighted standard deviation `series.ewm(span=n).std()` is an
external collaborator, passed in as `ewmStd` (span, series ↦ std series);
`.iloc[-1]` is the last element, `none` when the series is empty. -/
def QP_calculate_unit_var (ewmStd : ℕ → List ℚ → List ℚ) (lookback_var : ℕ)
    (signal_strength : List (String × ℚ)) (daily_prices : String → List ℚ)
    (unit_weights : String → ℚ) : Option ℚ :=
  let portfolio_return_list :=
    signal_strength.map (fun p => (daily_prices p.1).map (fun x => x * unit_weights p.1))
  let portfolio_return := sumSeriesPointwise portfolio_return_list
  (ewmStd lookback_var portfolio_return).getLast?

/-- Modelled from the spec: the "combined return series" of section 4.2 — the
weighted sum, per historical period, of each instrument's series scaled by its
unit weight. -/
def spec_weightedCombinedSeries (signal_strength : List (String × ℚ))
    (daily_prices : String → List ℚ) (unit_weights : String → ℚ) : List ℚ :=
  sumSeriesPointwise
    (signal_strength.map (fun p => (daily_prices p.1).map (fun x => x * unit_weights p.1)))

/-- Concrete slice inputs for the warm-up abort scenario: instrument A is
initialized, flat, passes the ATR gate and has RSI above the buy threshold. -/
def sliceA : InstrSlice := ⟨true, ⟨2, 1, 70⟩, ⟨0, 10, 9⟩, ⟨10, 9, 10⟩⟩

/-- Instrument B's `ArrayManager` is not yet initialized. -/
def sliceB : InstrSlice := ⟨false, ⟨1, 1, 50⟩, ⟨0, 10, 9⟩, ⟨10, 9, 10⟩⟩

/-- Parameters for the warm-up abort scenario. -/
def warmupParams : Params := ⟨4/5, 1, 60, 40⟩

/-- Claim C3: for a flat instrument (position 0) whose ATR exceeds its ATR
moving average, with the thresholds from `on_init` (`rsi_buy = 50 + rsi_entry`,
`rsi_sell = 50 - rsi_entry`, for a nonnegative entry offset `rsi_entry`):
RSI above the buy threshold sets the target to `+fixed_size`, RSI below the
sell threshold sets it to `-fixed_size`, and otherwise the target is set
to `0`. -/
theorem c3_entry_signal (p : Params) (rsi_entry : ℚ) (ind : Indicators)
    (ps : PosState) (bar : Bar) (he : 0 ≤ rsi_entry)
    (hb : p.rsi_buy = (on_init_thresholds rsi_entry).1)
    (hs : p.rsi_sell = (on_init_thresholds rsi_entry).2)
    (hpos : ps.pos = 0) (hgate : ind.atr > ind.atr_ma) :
    (ind.rsi > 50 + rsi_entry → (processInstrument p ind ps bar).2 = some p.fixed_size) ∧
    (ind.rsi < 50 - rsi_entry → (processInstrument p ind ps bar).2 = some (-p.fixed_size)) ∧
    (ind.rsi ≤ 50 + rsi_entry → 50 - rsi_entry ≤ ind.rsi →
      (processInstrument p ind ps bar).2 = some 0) := by
  simp only [on_init_thresholds] at hb hs
  refine ⟨?_, ?_, ?_⟩
  · intro h
    simp [processInstrument, hpos, hgate, hb, h]
  · intro h
    have hnb : ¬ ind.rsi > p.rsi_buy := by rw [hb]; linarith
    simp [processInstrument, hpos, hgate, hnb, hs, h]
  · intro h1 h2
    have hnb : ¬ ind.rsi > p.rsi_buy := by rw [hb]; exact not_lt.mpr h1
    have hns : ¬ ind.rsi < p.rsi_sell := by rw [hs]; exact not_lt.mpr h2
    simp [processInstrument, hpos, hgate, hnb, hns]

/-- Witness for C3: the spec scenario — `rsi = 65 > 60 = 50 + 10`, ATR
`6/5 > 1`, flat position — yields the long entry target `+fixed_size = 1`. -/
theorem c3_entry_signal_witness :
    (processInstrument ⟨4/5, 1, 60, 40⟩ ⟨6/5, 1, 65⟩ ⟨0, 100, 90⟩ ⟨101, 99, 100⟩).2
      = some 1 :=
  (c3_entry_signal ⟨4/5, 1, 60, 40⟩ 10 ⟨6/5, 1, 65⟩ ⟨0, 100, 90⟩ ⟨101, 99, 100⟩
    (by norm_num) (by norm_num [on_init_thresholds]) (by norm_num [on_init_thresholds])
    rfl (by norm_num)).1 (by norm_num)

/-- Claim C4: for a flat instrument (position 0), if ATR does not exceed the
ATR moving average, the stored target stays `0` after the slice regardless of
the RSI value: the entry block is skipped, so no `set_target` call changes it. -/
theorem c4_gate_blocks_entry (p : Params) (ind : Indicators) (ps : PosState)
    (bar : Bar) (target : Int)
    (hpos : ps.pos = 0) (hgate : ind.atr ≤ ind.atr_ma) (htgt : target = 0) :
    newTarget target (processInstrument p ind ps bar).2 = 0 := by
  have hng : ¬ ind.atr > ind.atr_ma := not_lt.mpr hgate
  simp [processInstrument, newTarget, hpos, hng, htgt]

/-- Witness for C4: flat position, ATR `1 ≤ 2` ATR-MA, RSI 99 — target stays 0. -/
theorem c4_gate_blocks_entry_witness :
    newTarget 0 (processInstrument ⟨4/5, 1, 60, 40⟩ ⟨1, 2, 99⟩ ⟨0, 100, 90⟩
      ⟨101, 99, 100⟩).2 = 0 :=
  c4_gate_blocks_entry ⟨4/5, 1, 60, 40⟩ ⟨1, 2, 99⟩ ⟨0, 100, 90⟩ ⟨101, 99, 100⟩ 0
    rfl (by norm_num) rfl

/-- Claim C5: for an open position the trailing stop fires exactly when the
threshold is crossed: long (position > 0) sets target `0` iff
`close ≤ intra_trade_high * (1 - trailing_percent/100)` (with
`intra_trade_high` the state variable as updated this bar), and short
(position < 0) sets target `0` iff
`close ≥ intra_trade_low * (1 + trailing_percent/100)`. -/
theorem c5_trailing_stop (p : Params) (ind : Indicators) (ps : PosState) (bar : Bar) :
    (0 < ps.pos →
      ((processInstrument p ind ps bar).2 = some 0 ↔
        bar.close_price ≤
          (processInstrument p ind ps bar).1.intra_trade_high *
            (1 - p.trailing_percent / 100))) ∧
    (ps.pos < 0 →
      ((processInstrument p ind ps bar).2 = some 0 ↔
        bar.close_price ≥
          (processInstrument p ind ps bar).1.intra_trade_low *
            (1 + p.trailing_percent / 100))) := by
  constructor
  · intro hpos
    have h0 : ¬ ps.pos = 0 := by omega
    simp only [processInstrument, if_neg h0, if_pos hpos]
    split_ifs with h
    · simpa using h
    · simpa using h
  · intro hneg
    have h0 : ¬ ps.pos = 0 := by omega
    have h1 : ¬ ps.pos > 0 := by omega
    simp only [processInstrument, if_neg h0, if_neg h1, if_pos hneg]
    split_ifs with h
    · simpa using h
    · simpa using h

/-- Witness for C5: the spec scenario — long position, `intra_trade_high = 110`
(bar high `219/2 = 109.5` does not raise it), `trailing_percent = 4/5 = 0.8`,
stop `110 * (1 - 8/1000) = 109.12`, close `109 ≤ 109.12` — target forced to 0. -/
theorem c5_trailing_stop_witness :
    (processInstrument ⟨4/5, 1, 60, 40⟩ ⟨1, 1, 50⟩ ⟨1, 110, 100⟩ ⟨219/2, 108, 109⟩).2
      = some 0 :=
  ((c5_trailing_stop ⟨4/5, 1, 60, 40⟩ ⟨1, 1, 50⟩ ⟨1, 110, 100⟩ ⟨219/2, 108, 109⟩).1
    (by norm_num)).mpr (by norm_num [processInstrument])

/-- Claim C6: while a position stays open, the favorable extreme widens
monotonically and the opposite extreme tracks only the current bar: long
updates `intra_trade_high` to `max previous bar.high` (hence non-decreasing)
and resets `intra_trade_low` to `bar.low`; short updates `intra_trade_low` to
`min previous bar.low` (hence non-increasing) and resets `intra_trade_high`
to `bar.high`. -/
theorem c6_intra_trade_extremes (p : Params) (ind : Indicators) (ps : PosState)
    (bar : Bar) :
    (0 < ps.pos →
      (processInstrument p ind ps bar).1.intra_trade_high
          = max ps.intra_trade_high bar.high_price ∧
      ps.intra_trade_high ≤ (processInstrument p ind ps bar).1.intra_trade_high ∧
      (processInstrument p ind ps bar).1.intra_trade_low = bar.low_price) ∧
    (ps.pos < 0 →
      (processInstrument p ind ps bar).1.intra_trade_low
          = min ps.intra_trade_low bar.low_price ∧
      (processInstrument p ind ps bar).1.intra_trade_low ≤ ps.intra_trade_low ∧
      (processInstrument p ind ps bar).1.intra_trade_high = bar.high_price) := by
  constructor
  · intro hpos
    have h0 : ¬ ps.pos = 0 := by omega
    simp only [processInstrument, if_neg h0, if_pos hpos]
    split_ifs <;> exact ⟨rfl, le_max_left _ _, rfl⟩
  · intro hneg
    have h0 : ¬ ps.pos = 0 := by omega
    have h1 : ¬ ps.pos > 0 := by omega
    simp only [processInstrument, if_neg h0, if_neg h1, if_pos hneg]
    split_ifs <;> exact ⟨rfl, min_le_left _ _, rfl⟩

/-- Claim C7: while the position is nonzero the entry logic is never reached:
the only `set_target` call an open position can receive is `0`, and only when
its trailing stop triggers (long: close below the stop computed from the
updated running high; short: close above the stop computed from the updated
running low). -/
theorem c7_no_entry_while_open (p : Params) (ind : Indicators) (ps : PosState)
    (bar : Bar) (h : ps.pos ≠ 0) :
    ((processInstrument p ind ps bar).2 = none ∨
      (processInstrument p ind ps bar).2 = some 0) ∧
    ((processInstrument p ind ps bar).2 = some 0 →
      (0 < ps.pos ∧ bar.close_price ≤
          (max ps.intra_trade_high bar.high_price) * (1 - p.trailing_percent / 100)) ∨
      (ps.pos < 0 ∧ bar.close_price ≥
          (min ps.intra_trade_low bar.low_price) * (1 + p.trailing_percent / 100))) := by
  rcases lt_trichotomy ps.pos 0 with hneg | hz | hpos
  · have h0 : ¬ ps.pos = 0 := by omega
    have h1 : ¬ ps.pos > 0 := by omega
    simp only [processInstrument, if_neg h0, if_neg h1, if_pos hneg]
    split_ifs with hstop
    · exact ⟨Or.inr rfl, fun _ => Or.inr ⟨hneg, hstop⟩⟩
    · exact ⟨Or.inl rfl, fun hc => absurd hc (by simp)⟩
  · exact absurd hz h
  · have h0 : ¬ ps.pos = 0 := by omega
    simp only [processInstrument, if_neg h0, if_pos hpos]
    split_ifs with hstop
    · exact ⟨Or.inr rfl, fun _ => Or.inl ⟨hpos, hstop⟩⟩
    · exact ⟨Or.inl rfl, fun hc => absurd hc (by simp)⟩

/-- Witness for C7: a short position whose stop has not triggered receives
either no call or a `0` call (here: no call). -/
theorem c7_no_entry_while_open_witness :
    (processInstrument ⟨4/5, 1, 60, 40⟩ ⟨1, 1, 50⟩ ⟨-1, 110, 100⟩ ⟨101, 99, 100⟩).2 = none ∨
    (processInstrument ⟨4/5, 1, 60, 40⟩ ⟨1, 1, 50⟩ ⟨-1, 110, 100⟩ ⟨101, 99, 100⟩).2 = some 0 :=
  (c7_no_entry_while_open ⟨4/5, 1, 60, 40⟩ ⟨1, 1, 50⟩ ⟨-1, 110, 100⟩ ⟨101, 99, 100⟩
    (by norm_num)).1

/-- Claim C10: frame property of the per-instrument loop body — a flat
instrument failing the ATR gate, a long position whose stop is not hit, and a
short position whose stop is not hit each receive no `set_target` call at all
(their stored target is left unchanged), and the slice loop issues at most one
call per iterated instrument (the call symbols form a sublist of the iterated
symbols). -/
theorem c10_no_call_frame (p : Params) :
    (∀ ind ps bar, (ps : PosState).pos = 0 → (ind : Indicators).atr ≤ ind.atr_ma →
      (processInstrument p ind ps (bar : Bar)).2 = none) ∧
    (∀ ind ps bar, 0 < (ps : PosState).pos →
      (max ps.intra_trade_high (bar : Bar).high_price) * (1 - p.trailing_percent / 100)
          < bar.close_price →
      (processInstrument p (ind : Indicators) ps bar).2 = none) ∧
    (∀ ind ps bar, (ps : PosState).pos < 0 →
      (bar : Bar).close_price
          < (min ps.intra_trade_low bar.low_price) * (1 + p.trailing_percent / 100) →
      (processInstrument p (ind : Indicators) ps bar).2 = none) ∧
    (∀ L, ((onBarsLoop p L).1.map Prod.fst).Sublist (L.map Prod.fst)) := by
  refine ⟨?_, ?_, ?_, ?_⟩
  · intro ind ps bar hpos hgate
    have hng : ¬ ind.atr > ind.atr_ma := not_lt.mpr hgate
    simp [processInstrument, hpos, hng]
  · intro ind ps bar hpos hstop
    have h0 : ¬ ps.pos = 0 := by omega
    have hns : ¬ bar.close_price ≤
        (max ps.intra_trade_high bar.high_price) * (1 - p.trailing_percent / 100) :=
      not_le.mpr hstop
    simp only [processInstrument, if_neg h0, if_pos hpos, if_neg hns]
  · intro ind ps bar hneg hstop
    have h0 : ¬ ps.pos = 0 := by omega
    have h1 : ¬ ps.pos > 0 := by omega
    have hns : ¬ bar.close_price ≥
        (min ps.intra_trade_low bar.low_price) * (1 + p.trailing_percent / 100) :=
      not_le.mpr hstop
    simp only [processInstrument, if_neg h0, if_neg h1, if_pos hneg, if_neg hns]
  · intro L
    induction L with
    | nil => simp [onBarsLoop]
    | cons a t ih =>
      obtain ⟨asym, aslice⟩ := a
      by_cases ha : aslice.inited
      · simp only [onBarsLoop, ha, if_true, List.map_cons]
        cases hcall : (processInstrument p aslice.ind aslice.ps aslice.bar).2 with
        | none => simp [hcall]; exact ih.cons _
        | some t0 => simp [hcall]; exact ih
      · simp [onBarsLoop, ha]

/-- Witness for C10: flat instrument, ATR `1 ≤ 2` — no `set_target` call. -/
theorem c10_no_call_frame_witness :
    (processInstrument ⟨4/5, 1, 60, 40⟩ ⟨1, 2, 99⟩ ⟨0, 100, 90⟩ ⟨101, 99, 100⟩).2 = none :=
  (c10_no_call_frame ⟨4/5, 1, 60, 40⟩).1 ⟨1, 2, 99⟩ ⟨0, 100, 90⟩ ⟨101, 99, 100⟩
    rfl (by norm_num)

/-- Witness for C6: long position with previous high 110 and bar high 112 —
the tracked high becomes `max 110 112 = 112` and the low resets to the bar low. -/
theorem c6_intra_trade_extremes_witness :
    (processInstrument ⟨4/5, 1, 60, 40⟩ ⟨1, 1, 50⟩ ⟨1, 110, 100⟩ ⟨112, 108, 111⟩).1.intra_trade_high
        = max 110 112 ∧
    (110 : ℚ) ≤ (processInstrument ⟨4/5, 1, 60, 40⟩ ⟨1, 1, 50⟩ ⟨1, 110, 100⟩
        ⟨112, 108, 111⟩).1.intra_trade_high ∧
    (processInstrument ⟨4/5, 1, 60, 40⟩ ⟨1, 1, 50⟩ ⟨1, 110, 100⟩ ⟨112, 108, 111⟩).1.intra_trade_low
        = 108 :=
  (c6_intra_trade_extremes ⟨4/5, 1, 60, 40⟩ ⟨1, 1, 50⟩ ⟨1, 110, 100⟩ ⟨112, 108, 111⟩).1
    (by norm_num)

/-- Helper: summing entry-wise quotients equals the quotient of the sum. -/
theorem sum_map_snd_div (l : List (String × ℚ)) (S : ℚ) :
    (l.map (fun p => p.2 / S)).sum = (l.map Prod.snd).sum / S := by
  induction l with
  | nil => simp
  | cons a t ih => simp [ih, add_div]

/-- Claim C2 (failing input): on the nonempty mapping `{A: 1, B: -1}` whose
strengths sum to zero, `calculate_unit_weights` does not return early — it
reaches `strength / total_strength` with a zero denominator, which in Python
raises `ZeroDivisionError` to the caller (modelled as `Except.error ()`). -/
theorem c2_zero_sum_raises :
    calculate_unit_weights [("A", 1), ("B", -1)] = Except.error () := by
  have hsum : (([("A", (1 : ℚ)), ("B", -1)]).map Prod.snd).sum = 0 := by norm_num
  simp [calculate_unit_weights, hsum]

/-- Claim C8: whenever the strengths sum is nonzero, `calculate_unit_weights`
succeeds with `weight[i] = strength[i] / Σ strength[j]` and the weights sum to
exactly 1 in rational arithmetic. -/
theorem c8_weights_normalized (ss : List (String × ℚ))
    (h : (ss.map Prod.snd).sum ≠ 0) :
    calculate_unit_weights ss =
      Except.ok (ss.map (fun p => (p.1, p.2 / (ss.map Prod.snd).sum))) ∧
    ((ss.map (fun p => (p.1, p.2 / (ss.map Prod.snd).sum))).map Prod.snd).sum = 1 := by
  constructor
  · simp [calculate_unit_weights, h]
  · have h2 : ((ss.map (fun p => (p.1, p.2 / (ss.map Prod.snd).sum))).map Prod.snd)
        = ss.map (fun p => p.2 / (ss.map Prod.snd).sum) := by
      simp [List.map_map]
    rw [h2, sum_map_snd_div, div_self h]

/-- Witness for C8: strengths `{A: 1, B: 3}` give weights `{A: 1/4, B: 3/4}`,
summing to 1. -/
theorem c8_weights_normalized_witness :
    calculate_unit_weights [("A", 1), ("B", 3)] =
      Except.ok ([(("A" : String), (1 : ℚ)), ("B", 3)].map
        (fun p => (p.1, p.2 / (([(("A" : String), (1 : ℚ)), ("B", 3)].map Prod.snd).sum)))) ∧
    (([(("A" : String), (1 : ℚ)), ("B", 3)].map
        (fun p => (p.1, p.2 / (([(("A" : String), (1 : ℚ)), ("B", 3)].map Prod.snd).sum)))).map
          Prod.snd).sum = 1 :=
  c8_weights_normalized [("A", 1), ("B", 3)] (by norm_num)

/-- Claim C9: the two strategy variants differ only in their weighting/VaR
formula — `MeanReversionStrategy.calculate_unit_var` returns `None` for every
state, `QuadProgStrategy.calculate_unit_var` returns the most recent point of
the exponentially-weighted standard deviation (span = the VaR lookback) of the
weighted combined per-instrument series, and the per-instrument signal/stop
logic of the two `on_bars` bodies is one and the same function. -/
theorem c9_variants_differ_only_in_var :
    (∀ ss, MR_calculate_unit_var ss = none) ∧
    (∀ ewmStd lookback_var ss dp w,
      QP_calculate_unit_var ewmStd lookback_var ss dp w =
        (ewmStd lookback_var (spec_weightedCombinedSeries ss dp w)).getLast?) ∧
    processInstrumentMR = processInstrument :=
  ⟨fun _ => rfl, fun _ _ _ _ _ => rfl, rfl⟩

/-- Claim C1 is false as stated: with instrument B uninitialized, the slice
`[A, B]` still issues the `set_target` call `("A", 1)` for instrument A, which
is iterated before B — the early `return` aborts only the rebalance and the
instruments from B onward, not the calls already made. -/
theorem c1_counterexample :
    sliceB.inited = false ∧
    (onBarsLoop warmupParams [("A", sliceA), ("B", sliceB)]).1 = [("A", 1)] ∧
    (onBarsLoop warmupParams [("A", sliceA), ("B", sliceB)]).1 ≠ [] ∧
    (onBarsLoop warmupParams [("A", sliceA), ("B", sliceB)]).2 = false := by
  refine ⟨rfl, ?_, ?_, ?_⟩ <;>
    norm_num [onBarsLoop, processInstrument, sliceA, sliceB, warmupParams]

/-- Claim C1 amended: when the loop meets an instrument whose `ArrayManager`
is not initialized (every earlier instrument being initialized), `on_bars`
returns early — the rebalance is skipped and no `set_target` is issued for the
uninitialized instrument or any instrument after it — but the `set_target`
calls of the instruments iterated before it have already been applied (and the
first loop's indicator updates stand for the whole slice). -/
theorem c1_warmup_abort (p : Params) (pre post : List (String × InstrSlice))
    (sym : String) (s : InstrSlice)
    (hpre : ∀ x ∈ pre, x.2.inited = true) (hs : s.inited = false) :
    onBarsLoop p (pre ++ (sym, s) :: post) = ((onBarsLoop p pre).1, false) := by
  induction pre with
  | nil => simp [onBarsLoop, hs]
  | cons a t ih =>
    obtain ⟨asym, aslice⟩ := a
    have ha : aslice.inited = true := hpre _ (List.mem_cons_self _ t)
    have ht : ∀ x ∈ t, x.2.inited = true := fun x hx => hpre x (List.mem_cons_of_mem _ hx)
    simp only [List.cons_append, onBarsLoop, ha, if_true, List.append_eq]
    rw [ih ht]

/-- Witness for C1 (amended): on the slice `[A, B]` with B uninitialized, the
loop result is A's calls paired with `rebalanced = false`. -/
theorem c1_warmup_abort_witness :
    onBarsLoop warmupParams [("A", sliceA), ("B", sliceB)]
      = ((onBarsLoop warmupParams [("A", sliceA)]).1, false) :=
  c1_warmup_abort warmupParams [("A", sliceA)] [] "B" sliceB
    (by simp [sliceA]) rfl
